import Mathlib

/-!
Verification of `gphotos_parallel.py` (google-takeout-scripts): a shallow
embedding of the metadata-matching pipeline — media-file resolution
(`try_get_file`), field translation (`GPSData.to_params`,
`MediaDates.to_params`, `normalize_ascii`), command assembly and subprocess
invocation (`add_media_metadata`), and the per-sidecar task
(`process_json_file`) together with the coordinator's result-collection loop
(`mainLoop`).

Modelling conventions:
- The filesystem is the set of existing regular files, `fs : List String`;
  `os.path.isfile p` becomes `p ∈ fs`.
- Python floats from the sidecar JSON are modelled as `ℚ` (the script only
  compares them with `0`, takes `abs`, and floors them to whole seconds).
- Side effects (printing, running the external tool, creating directories,
  moving files) are recorded as an explicit `Effect` trace.
- A raised Python exception is an `Except.error` carrying the exception
  message.
-/

namespace GPhotos

/-- Decidable equality of `Except` results, so concrete task traces can be
checked by `decide`. -/
instance {ε α : Type} [DecidableEq ε] [DecidableEq α] : DecidableEq (Except ε α) := fun x y =>
  match x, y with
  | .ok a, .ok b => if h : a = b then .isTrue (by rw [h]) else .isFalse (by simp [h])
  | .error a, .error b => if h : a = b then .isTrue (by rw [h]) else .isFalse (by simp [h])
  | .ok _, .error _ => .isFalse (by simp)
  | .error _, .ok _ => .isFalse (by simp)

/-- `posixpath.join dir file` for the two-argument calls the script makes:
if `file` is absolute it wins; otherwise a `/` separator is inserted unless
`dir` is empty or already ends in `/`. -/
def osJoin (a b : String) : String :=
  if b.toList.head? = some '/' then b
  else if a = "" ∨ a.toList.getLast? = some '/' then a ++ b
  else a ++ "/" ++ b

/-- `os.path.basename`: the part of the path after the last `/`. -/
def basename (s : String) : String :=
  String.mk ((s.toList.reverse.takeWhile (fun c => c ≠ '/')).reverse)

/-- `str.rstrip(os.path.sep)`: drop trailing `/` characters. -/
def rstripSep (s : String) : String :=
  String.mk ((s.toList.reverse.dropWhile (fun c => c = '/')).reverse)

/-- `os.path.dirname`: everything up to the last `/`, with trailing
separators stripped unless the head consists only of separators. -/
def dirname (s : String) : String :=
  let head := (s.toList.reverse.dropWhile (fun c => c ≠ '/')).reverse
  if head.all (fun c => c = '/') then String.mk head
  else String.mk ((head.reverse.dropWhile (fun c => c = '/')).reverse)

/-- The extension component of `os.path.splitext` (CPython
`genericpath._splitext` with `sep='/'`, `extsep='.'`): the suffix from the
last dot of the final path component, unless every character before that dot
is itself a dot (so `".bashrc"` and `"..jpg"` have no extension). -/
def splitextExt (p : String) : String :=
  let bn := (p.toList.reverse.takeWhile (fun c => c ≠ '/')).reverse
  let revAfter := bn.reverse.takeWhile (fun c => c ≠ '.')
  if revAfter.length = bn.length then ""
  else if (bn.take (bn.length - revAfter.length - 1)).any (fun c => c ≠ '.') then
    String.mk (bn.drop (bn.length - revAfter.length - 1))
  else ""

/-- `str.lower`, restricted to the per-character lowering the script's
extension strings need. -/
def strLower (s : String) : String :=
  String.mk (s.toList.map Char.toLower)

/-- `EXTENSIONS` from the source, verbatim: note every entry already carries
its leading dot. -/
def EXTENSIONS : List String := [".jpg", ".png", ".heic", ".heif", ".mp4"]

/-- The extension-guessing loop of `try_get_file`: for each entry `file_ext`
of `EXTENSIONS` it probes `os.path.join(dir, f"{file}.{file_ext}")` — the
format string inserts a dot of its own, and `file_ext` starts with one, so
the probed name contains a double dot — returning the first probe that is an
existing regular file, else raising. -/
def probeExtensions (fs : List String) (dir file : String) : List String → Except String String
  | [] => Except.error ("Could not find any extension for file: \"" ++ osJoin dir file ++ "\"")
  | file_ext :: rest =>
    if osJoin dir (file ++ "." ++ file_ext) ∈ fs then
      Except.ok (osJoin dir (file ++ "." ++ file_ext))
    else probeExtensions fs dir file rest

/-- `try_get_file(dir, file)`: when `file` has a (lower-cased) nonempty
extension, resolve to `os.path.join(dir, file)` exactly and raise
`File not found` if it is not a regular file; when the extension is empty,
fall through to the `EXTENSIONS` probe loop. -/
def try_get_file (fs : List String) (dir file : String) : Except String String :=
  if strLower (splitextExt file) ≠ "" then
    if osJoin dir file ∈ fs then Except.ok (osJoin dir file)
    else Except.error ("File not found: \"" ++ osJoin dir file ++ "\"")
  else probeExtensions fs dir file EXTENSIONS

/-- One argument of the external-tool command line. Arguments whose text the
script builds from strings are `plain`; the geolocation arguments keep their
rational value, abstracting only Python's float-to-decimal rendering inside
the `-GPSLatitude={...}`-style format strings. -/
inductive Arg
  | plain (s : String)
  | gpsLatitude (v : ℚ)
  | gpsLatitudeRef (r : String)
  | gpsLongitude (v : ℚ)
  | gpsLongitudeRef (r : String)
  | gpsAltitude (v : ℚ)
deriving DecidableEq, Repr

/-- A recorded side effect of one task: a console line, an external-tool
invocation (`subprocess.run`), `os.makedirs`, or `shutil.move`. -/
inductive Effect
  | print (msg : String)
  | run (cmd : List Arg)
  | makedirs (path : String)
  | move (src dst : String)
deriving DecidableEq, Repr

/-- `geoData` as read from the sidecar JSON: each key may be absent. -/
structure GeoDict where
  latitude : Option ℚ
  longitude : Option ℚ
  altitude : Option ℚ
deriving DecidableEq, Repr

/-- `GPSData.__init__`: `geoData.get(key, 0.0)` for the three fields. -/
structure GPSData where
  latitude : ℚ
  longitude : ℚ
  altitude : ℚ
deriving DecidableEq, Repr

def GPSData.ofDict (g : GeoDict) : GPSData :=
  ⟨g.latitude.getD 0, g.longitude.getD 0, g.altitude.getD 0⟩

/-- `GPSData.to_params`, line for line: the `(0,0)` placeholder check, the
absolute values with hemisphere references, and the altitude pair (the
source appends the `-GPSAltitude` argument twice) guarded by
`altitude != 0.0`. -/
def GPSData.to_params (g : GPSData) : List Arg :=
  if g.latitude = 0 ∧ g.longitude = 0 then []
  else
    [Arg.gpsLatitude |g.latitude|,
     Arg.gpsLatitudeRef (if g.latitude ≥ 0 then "N" else "S"),
     Arg.gpsLongitude |g.longitude|,
     Arg.gpsLongitudeRef (if g.longitude ≥ 0 then "E" else "W")]
    ++ (if g.altitude ≠ 0 then [Arg.gpsAltitude |g.altitude|, Arg.gpsAltitude |g.altitude|] else [])

/-- `photoTakenTime` / `creationTime` as read from the sidecar JSON: the
`timestamp` key may be absent; its string value is modelled already parsed
(by `float(...)`) as a rational number of epoch seconds. -/
structure TimeDict where
  timestamp : Option ℚ
deriving DecidableEq, Repr

/-- Floor of a rational to an integer, `Int.fdiv` of numerator by
denominator: whole epoch seconds as displayed by `strftime` after
`datetime.fromtimestamp`. -/
def ratFloor (q : ℚ) : ℤ :=
  Int.fdiv q.num q.den

def pad2 (n : Nat) : String :=
  if n < 10 then "0" ++ toString n else toString n

def pad4 (n : Nat) : String :=
  if n < 10 then "000" ++ toString n
  else if n < 100 then "00" ++ toString n
  else if n < 1000 then "0" ++ toString n
  else toString n

/-- Proleptic-Gregorian civil date (year, month, day) from a count of days
since 1970-01-01, the standard era-based algorithm; models the calendar
arithmetic inside `datetime.fromtimestamp(_, timezone.utc)`. -/
def civilFromDays (z : ℤ) : ℤ × Nat × Nat :=
  let zs := z + 719468
  let era := Int.ediv zs 146097
  let doe := (zs - era * 146097).toNat
  let yoe := (doe - doe / 1460 + doe / 36524 - doe / 146096) / 365
  let y : ℤ := (yoe : ℤ) + era * 400
  let doy := doe - (365 * yoe + yoe / 4 - yoe / 100)
  let mp := (5 * doy + 2) / 153
  let d := doy - (153 * mp + 2) / 5 + 1
  let m := if mp < 10 then mp + 3 else mp - 9
  (if m ≤ 2 then y + 1 else y, m, d)

/-- `datetime.fromtimestamp(t, timezone.utc).strftime("%Y:%m:%d %H:%M:%S")`
for whole seconds `t`: split into days and seconds-of-day, convert the days
to a civil date, and zero-pad each component per `DATETIME_STR_FORMAT`. -/
def epochFormat (t : ℤ) : String :=
  let secs := (Int.emod t 86400).toNat
  let c := civilFromDays (Int.ediv t 86400)
  pad4 c.1.toNat ++ ":" ++ pad2 c.2.1 ++ ":" ++ pad2 c.2.2 ++ " " ++
    pad2 (secs / 3600) ++ ":" ++ pad2 (secs % 3600 / 60) ++ ":" ++ pad2 (secs % 60)

/-- `MediaDates.__init__`: the two UTC datetimes, kept as the epoch-second
values `float(d.get('timestamp', 0.0))`. -/
structure MediaDates where
  taken_time : ℚ
  creation_time : ℚ
deriving DecidableEq, Repr

def MediaDates.ofDicts (taken_time creation_time : TimeDict) : MediaDates :=
  ⟨taken_time.timestamp.getD 0, creation_time.timestamp.getD 0⟩

/-- `MediaDates.to_params`: three date arguments, the first from the taken
time, the second and third both from the creation time. -/
def MediaDates.to_params (d : MediaDates) : List Arg :=
  [Arg.plain ("-DateTimeOriginal=" ++ epochFormat (ratFloor d.taken_time)),
   Arg.plain ("-CreateDate=" ++ epochFormat (ratFloor d.creation_time)),
   Arg.plain ("-ModifyDate=" ++ epochFormat (ratFloor d.creation_time))]

/-- NFKD decomposition of one code point, modelling
`unicodedata.normalize('NFKD', _)` (Python stdlib, assumed provided) for the
code points exercised in this development: the precomposed Latin letters
decompose into base letter plus combining mark; every other code point is
its own decomposition. -/
def nfkdChar (c : Char) : List Char :=
  if c = 'é' then ['e', Char.ofNat 0x301]
  else if c = 'ï' then ['i', Char.ofNat 0x308]
  else if c = 'á' then ['a', Char.ofNat 0x301]
  else [c]

/-- `unicodedata.category(c) == 'Mn'` (nonspacing combining mark), modelled
for the Combining Diacritical Marks block U+0300–U+036F, which is where the
decompositions produced by `nfkdChar` land. -/
def isMn (c : Char) : Bool :=
  0x300 ≤ c.toNat && c.toNat ≤ 0x36F

/-- `normalize_ascii`: NFKD-decompose the text and keep every character
whose category is not `Mn`. -/
def normalize_ascii (texto : String) : String :=
  String.mk ((texto.toList.flatMap nfkdChar).filter (fun c => ¬ isMn c))

/-- The description clause of `add_media_metadata`:
`if description: cmd.append(f"-Description={normalize_ascii(description)}")`,
where a missing key gives `None` and both `None` and `""` are falsy. -/
def descriptionArgs (description : Option String) : List Arg :=
  match description with
  | none => []
  | some d => if d ≠ "" then [Arg.plain ("-Description=" ++ normalize_ascii d)] else []

/-- One parsed sidecar JSON object, restricted to the keys the script reads;
every key may be absent. -/
structure Metadata where
  title : Option String
  description : Option String
  photoTakenTime : Option TimeDict
  creationTime : Option TimeDict
  geoData : Option GeoDict
deriving DecidableEq, Repr

/-- `add_media_metadata(exiftool_exe, dir, metadata)`. The external tool is
parameterised as `extRun`, the exit-status/stderr oracle standing for
`subprocess.run`; the source binds the completed process to no name and
never inspects it, so the oracle's answer is discarded here exactly as
there. `metadata['title']` raises `KeyError` when the key is absent; a
`try_get_file` failure is caught and printed, and the function then returns
without invoking the tool. Python returns `None` on every path. -/
def add_media_metadata (extRun : List Arg → Int × String) (fs : List String)
    (exiftool_exe dir : String) (metadata : Metadata) : Except String (List Effect) :=
  match metadata.title with
  | none => Except.error "KeyError: 'title'"
  | some title =>
    match try_get_file fs dir title with
    | Except.error e => Except.ok [Effect.print ("[!] " ++ e)]
    | Except.ok file_path =>
      let dates := MediaDates.ofDicts (metadata.photoTakenTime.getD ⟨none⟩)
        (metadata.creationTime.getD ⟨none⟩)
      let geo := GPSData.ofDict (metadata.geoData.getD ⟨none, none, none⟩)
      let cmd : List Arg :=
        [Arg.plain exiftool_exe, Arg.plain "-overwrite_original"]
        ++ descriptionArgs metadata.description
        ++ dates.to_params ++ geo.to_params ++ [Arg.plain file_path]
      let _completed := extRun cmd
      Except.ok [Effect.run cmd]

/-- `process_json_file(exiftool_exe, metadata_dir, dir, json_file)`. Reading
and parsing the sidecar is modelled by the `parsed` argument: `none` stands
for a file whose contents `json.load` rejects, raising a `JSONDecodeError`
that nothing in the task catches. The source's lines after parsing are a
loop body pasted out of its loop (the `continue` guard and the free
variables `last_dir`, `metadata_folder`, `base_dir` survive from the former
single-threaded walk); they are modelled with that walk's semantics:
`last_dir = os.path.basename(dir.rstrip(os.path.sep))`, skip when the title
is `None` or equals `last_dir`, otherwise apply the metadata and then —
whenever a relocation folder is configured, with no success check — move the
sidecar, preserving its path relative to `base_dir`. The function body has
no `return` statement, so the task's Python return value is `None`,
modelled as the `Option String` component. -/
def process_json_file (extRun : List Arg → Int × String) (fs : List String)
    (parsed : Option Metadata) (exiftool_exe metadata_folder base_dir dir json_file : String) :
    Except String (List Effect × Option String) :=
  let metadata_fullpath := osJoin dir json_file
  match parsed with
  | none => Except.error "Expecting value: line 1 column 1 (char 0)"
  | some metadata =>
    let last_dir := basename (rstripSep dir)
    match metadata.title with
    | none => Except.ok ([], none)
    | some title =>
      if title = last_dir then Except.ok ([], none)
      else
        match add_media_metadata extRun fs exiftool_exe dir metadata with
        | Except.error e => Except.error e
        | Except.ok effs =>
          if metadata_folder ≠ "" then
            let new_metadata_path :=
              osJoin metadata_folder (metadata_fullpath.drop (base_dir.length + 1))
            Except.ok (effs ++
              [Effect.makedirs (dirname new_metadata_path),
               Effect.move metadata_fullpath new_metadata_path], none)
          else Except.ok (effs, none)

/-- The result-collection loop of `main`: for each completed future,
`execution.result()` re-raises any exception the task raised — nothing in
`main` catches it, so the loop terminates there — and otherwise the task's
return value is printed when truthy. The summary value is the list of lines
printed for truthy results. -/
def mainLoop : List (Except String (List Effect × Option String)) → Except String (List String)
  | [] => Except.ok []
  | Except.error e :: _ => Except.error e
  | Except.ok (_, r) :: rest =>
    match mainLoop rest with
    | Except.error e => Except.error e
    | Except.ok msgs =>
      Except.ok ((match r with | some m => ["[!] " ++ m] | none => []) ++ msgs)

/-- An external-tool oracle that reports success with empty stderr. -/
def run0 : List Arg → Int × String := fun _ => (0, "")

/-- An external-tool oracle that reports exit status 1 with stderr text
`boom`. -/
def run1 : List Arg → Int × String := fun _ => (1, "boom")

/-- With the title key present, `add_media_metadata` never raises: it either
prints the resolution failure or records the tool invocation. -/
lemma add_media_metadata_ok (extRun : List Arg → Int × String) (fs : List String)
    (exiftool_exe dir t : String) (de : Option String) (pt ct : Option TimeDict)
    (gd : Option GeoDict) :
    ∃ effs, add_media_metadata extRun fs exiftool_exe dir ⟨some t, de, pt, ct, gd⟩ =
      Except.ok effs := by
  cases h : try_get_file fs dir t with
  | error e =>
    refine ⟨[Effect.print ("[!] " ++ e)], ?_⟩
    simp [add_media_metadata, h]
  | ok p =>
    refine ⟨[Effect.run ([Arg.plain exiftool_exe, Arg.plain "-overwrite_original"]
      ++ descriptionArgs de
      ++ (MediaDates.ofDicts (pt.getD ⟨none⟩) (ct.getD ⟨none⟩)).to_params
      ++ (GPSData.ofDict (gd.getD ⟨none, none, none⟩)).to_params
      ++ [Arg.plain p])], ?_⟩
    simp [add_media_metadata, h]

/-- Claim C6 (confirmed): when latitude and longitude are both 0.0, no
geolocation arguments are emitted, regardless of the altitude value. -/
theorem c6_zero_latlon_no_geo_args (g : GPSData) (h1 : g.latitude = 0) (h2 : g.longitude = 0) :
    g.to_params = [] := by
  simp [GPSData.to_params, h1, h2]

/-- Witness for C6 at latitude 0, longitude 0, altitude 5. -/
theorem c6_zero_latlon_no_geo_args_witness : GPSData.to_params ⟨0, 0, 5⟩ = [] :=
  c6_zero_latlon_no_geo_args ⟨0, 0, 5⟩ rfl rfl

/-- Claim C7 (confirmed): when latitude and longitude are not both 0.0, the
geolocation arguments are the absolute latitude with reference `N` for
latitude ≥ 0 and `S` otherwise, the absolute longitude with reference `E`
for longitude ≥ 0 and `W` otherwise, followed by altitude arguments carrying
the absolute altitude exactly when the altitude is nonzero (the source
appends that argument twice). -/
theorem c7_geo_args_shape (g : GPSData) (h : ¬ (g.latitude = 0 ∧ g.longitude = 0)) :
    g.to_params =
      [Arg.gpsLatitude |g.latitude|,
       Arg.gpsLatitudeRef (if g.latitude ≥ 0 then "N" else "S"),
       Arg.gpsLongitude |g.longitude|,
       Arg.gpsLongitudeRef (if g.longitude ≥ 0 then "E" else "W")]
      ++ (if g.altitude ≠ 0 then [Arg.gpsAltitude |g.altitude|, Arg.gpsAltitude |g.altitude|]
          else []) := by
  simp only [GPSData.to_params, if_neg h]

/-- Witness for C7 at latitude -1, longitude 3, altitude 2. -/
theorem c7_geo_args_shape_witness :
    GPSData.to_params ⟨-1, 3, 2⟩ =
      [Arg.gpsLatitude 1, Arg.gpsLatitudeRef "S", Arg.gpsLongitude 3, Arg.gpsLongitudeRef "E",
       Arg.gpsAltitude 2, Arg.gpsAltitude 2] := by
  rw [c7_geo_args_shape ⟨-1, 3, 2⟩ (by decide)]
  decide

/-- Claim C8 (confirmed): the date translation always emits exactly three
arguments — original-capture from `photoTakenTime`, creation and
modification both from `creationTime` — formatted `YYYY:MM:DD HH:MM:SS` in
UTC, with an absent timestamp defaulting to the Unix epoch; a nontrivial
instant and the epoch default are evaluated concretely. -/
theorem c8_three_date_args :
    (∀ taken_time creation_time : TimeDict,
      (MediaDates.ofDicts taken_time creation_time).to_params =
        [Arg.plain ("-DateTimeOriginal=" ++ epochFormat (ratFloor (taken_time.timestamp.getD 0))),
         Arg.plain ("-CreateDate=" ++ epochFormat (ratFloor (creation_time.timestamp.getD 0))),
         Arg.plain ("-ModifyDate=" ++ epochFormat (ratFloor (creation_time.timestamp.getD 0)))])
    ∧ (MediaDates.ofDicts ⟨some 1700000000⟩ ⟨none⟩).to_params =
        [Arg.plain "-DateTimeOriginal=2023:11:14 22:13:20",
         Arg.plain "-CreateDate=1970:01:01 00:00:00",
         Arg.plain "-ModifyDate=1970:01:01 00:00:00"]
    ∧ (MediaDates.ofDicts ⟨none⟩ ⟨none⟩).to_params =
        [Arg.plain "-DateTimeOriginal=1970:01:01 00:00:00",
         Arg.plain "-CreateDate=1970:01:01 00:00:00",
         Arg.plain "-ModifyDate=1970:01:01 00:00:00"] :=
  ⟨fun _ _ => rfl, by decide, by decide⟩

/-- Claim C9 (confirmed): a present nonempty description yields exactly one
description argument carrying the NFKD-decomposed text with combining marks
stripped; an absent or empty description yields none; the sample text
normalizes as the spec states. -/
theorem c9_description_normalized :
    (∀ d : String, d ≠ "" →
      descriptionArgs (some d) = [Arg.plain ("-Description=" ++ normalize_ascii d)])
    ∧ descriptionArgs none = []
    ∧ descriptionArgs (some "") = []
    ∧ normalize_ascii "café, naïve" = "cafe, naive" := by
  refine ⟨fun d hd => ?_, rfl, by decide, by decide⟩
  simp [descriptionArgs, hd]

/-- Witness for C9 at the spec's sample description. -/
theorem c9_description_normalized_witness :
    descriptionArgs (some "café, naïve") =
      [Arg.plain ("-Description=" ++ normalize_ascii "café, naïve")] :=
  c9_description_normalized.1 "café, naïve" (by decide)

/-- Claim C10 (confirmed): a title carrying an extension resolves to
`directory/title` exactly — the result depends only on whether that one path
is a regular file, a missing file failing immediately with the
file-not-found error, with no extension probing. -/
theorem c10_extension_exact_resolution (fs : List String) (dir file : String)
    (h : strLower (splitextExt file) ≠ "") :
    try_get_file fs dir file =
      if osJoin dir file ∈ fs then Except.ok (osJoin dir file)
      else Except.error ("File not found: \"" ++ osJoin dir file ++ "\"") := by
  simp only [try_get_file, if_pos h]

/-- Witness for C10: `foo.jpg` absent from an empty filesystem fails at the
exact path. -/
theorem c10_extension_exact_resolution_witness :
    try_get_file [] "album" "foo.jpg" = Except.error "File not found: \"album/foo.jpg\"" := by
  rw [c10_extension_exact_resolution [] "album" "foo.jpg" (by decide)]
  decide

/-- Claim C2 (code bug): for the extensionless title `foo` with both
`foo.png` and `foo.heic` present, resolution finds nothing — each probe
appends a dot to an `EXTENSIONS` entry that already starts with one, so the
probed names carry a double dot — and it raises the no-extension error; a
file actually named `foo..png` would be found. -/
theorem c2_double_dot_probe_misses :
    try_get_file ["album/foo.png", "album/foo.heic"] "album" "foo" =
      Except.error "Could not find any extension for file: \"album/foo\""
    ∧ try_get_file ["album/foo..png"] "album" "foo" = Except.ok "album/foo..png" :=
  ⟨by decide, by decide⟩

/-- Claim C1 (corrected), counterexample: with relocation configured and the
media file absent, resolution fails (the failure is printed) and the sidecar
is nevertheless moved to the relocation directory. -/
theorem c1_sidecar_moved_despite_failure :
    process_json_file run0 [] (some ⟨some "pic.jpg", none, none, none, none⟩)
        "exiftool" "meta" "root" "root/album" "pic.supplemental-metadata.json" =
      Except.ok ([Effect.print "[!] File not found: \"root/album/pic.jpg\"",
        Effect.makedirs "meta/album",
        Effect.move "root/album/pic.supplemental-metadata.json"
          "meta/album/pic.supplemental-metadata.json"], none) := by
  decide

/-- Claim C1 (corrected), amended: when a relocation directory is configured,
every non-skipped sidecar — with the title key present and different from
the containing directory's name — is moved to the relocation directory
(preserving its path relative to root, after a makedirs of the target's
directory) regardless of whether resolution or application succeeded. -/
theorem c1_move_unconditional (extRun : List Arg → Int × String) (fs : List String)
    (exiftool_exe metadata_folder base_dir dir json_file t : String) (de : Option String)
    (pt ct : Option TimeDict) (gd : Option GeoDict)
    (hne : t ≠ basename (rstripSep dir)) (hmf : metadata_folder ≠ "") :
    ∃ effs,
      add_media_metadata extRun fs exiftool_exe dir ⟨some t, de, pt, ct, gd⟩ = Except.ok effs
      ∧ process_json_file extRun fs (some ⟨some t, de, pt, ct, gd⟩)
          exiftool_exe metadata_folder base_dir dir json_file =
        Except.ok (effs ++
          [Effect.makedirs (dirname
            (osJoin metadata_folder ((osJoin dir json_file).drop (base_dir.length + 1)))),
           Effect.move (osJoin dir json_file)
            (osJoin metadata_folder ((osJoin dir json_file).drop (base_dir.length + 1)))],
          none) := by
  obtain ⟨effs, heq⟩ := add_media_metadata_ok extRun fs exiftool_exe dir t de pt ct gd
  refine ⟨effs, heq, ?_⟩
  simp only [process_json_file, heq, if_neg hne, if_pos hmf]

/-- Witness for the amended C1 at a concrete failed resolution. -/
theorem c1_move_unconditional_witness :
    ∃ effs,
      add_media_metadata run0 [] "exiftool" "root/album"
          ⟨some "pic.jpg", none, none, none, none⟩ = Except.ok effs
      ∧ process_json_file run0 [] (some ⟨some "pic.jpg", none, none, none, none⟩)
          "exiftool" "meta" "root" "root/album" "x.json" =
        Except.ok (effs ++
          [Effect.makedirs (dirname
            (osJoin "meta" ((osJoin "root/album" "x.json").drop ("root".length + 1)))),
           Effect.move (osJoin "root/album" "x.json")
            (osJoin "meta" ((osJoin "root/album" "x.json").drop ("root".length + 1)))],
          none) :=
  c1_move_unconditional run0 [] "exiftool" "meta" "root" "root/album" "x.json" "pic.jpg"
    none none none none (by decide) (by decide)

/-- Claim C3 (corrected), counterexample: a sidecar whose title is the empty
string is not skipped — resolution is attempted (probing the dotted names
and printing the no-extension failure) and the sidecar is still moved when
relocation is configured. -/
theorem c3_empty_title_not_skipped :
    process_json_file run0 [] (some ⟨some "", none, none, none, none⟩)
        "exiftool" "meta" "root" "root/album" "x.json" =
      Except.ok ([Effect.print "[!] Could not find any extension for file: \"root/album/\"",
        Effect.makedirs "meta/album",
        Effect.move "root/album/x.json" "meta/album/x.json"], none)
    ∧ process_json_file run0 [] (some ⟨some "", none, none, none, none⟩)
        "exiftool" "meta" "root" "root/album" "x.json" ≠ Except.ok ([], none) :=
  ⟨by decide, by decide⟩

/-- Claim C3 (corrected), amended: a sidecar whose title key is absent, or
whose title equals the name of its containing directory, yields a skip — no
effects and no reported failure; an empty-string title does not skip. -/
theorem c3_skip_none_or_dirname (extRun : List Arg → Int × String) (fs : List String)
    (exiftool_exe metadata_folder base_dir dir json_file : String) (m : Metadata)
    (h : m.title = none ∨ m.title = some (basename (rstripSep dir))) :
    process_json_file extRun fs (some m) exiftool_exe metadata_folder base_dir dir json_file =
      Except.ok ([], none) := by
  obtain ⟨ti, de, pt, ct, gd⟩ := m
  rcases h with h | h <;> simp only at h <;> subst h <;> simp [process_json_file]

/-- Witness for the amended C3: an album-level sidecar (title equal to the
directory name) is skipped. -/
theorem c3_skip_none_or_dirname_witness :
    process_json_file run0 [] (some ⟨some "album", none, none, none, none⟩)
        "exiftool" "meta" "root" "root/album" "metadata.json" = Except.ok ([], none) :=
  c3_skip_none_or_dirname run0 [] "exiftool" "meta" "root" "root/album" "metadata.json"
    ⟨some "album", none, none, none, none⟩ (Or.inr (by decide))

/-- Claim C4 (corrected), counterexample: with the external tool exiting
with status 1 and stderr `boom`, the task still completes with no recorded
outcome — the command is run once and the Python return value is `None`, so
no `Failed` outcome carrying the stderr text exists. -/
theorem c4_exit_status_ignored :
    process_json_file run1 ["root/a/p.jpg"] (some ⟨some "p.jpg", none, none, none, none⟩)
        "exiftool" "" "root" "root/a" "p.json" =
      Except.ok ([Effect.run
        [Arg.plain "exiftool", Arg.plain "-overwrite_original",
         Arg.plain "-DateTimeOriginal=1970:01:01 00:00:00",
         Arg.plain "-CreateDate=1970:01:01 00:00:00",
         Arg.plain "-ModifyDate=1970:01:01 00:00:00",
         Arg.plain "root/a/p.jpg"]], none) := by
  decide

/-- Claim C4 (corrected), amended: on a resolved media path the external
tool is invoked exactly once — no retries — but its exit status and captured
stderr are discarded: the recorded trace and the absent outcome are the same
for every subprocess oracle. -/
theorem c4_single_invocation_discarded_result (extRun : List Arg → Int × String)
    (fs : List String) (exiftool_exe dir t p : String) (de : Option String)
    (pt ct : Option TimeDict) (gd : Option GeoDict)
    (hp : try_get_file fs dir t = Except.ok p) :
    add_media_metadata extRun fs exiftool_exe dir ⟨some t, de, pt, ct, gd⟩ =
      Except.ok [Effect.run
        ([Arg.plain exiftool_exe, Arg.plain "-overwrite_original"]
         ++ descriptionArgs de
         ++ (MediaDates.ofDicts (pt.getD ⟨none⟩) (ct.getD ⟨none⟩)).to_params
         ++ (GPSData.ofDict (gd.getD ⟨none, none, none⟩)).to_params
         ++ [Arg.plain p])] := by
  simp only [add_media_metadata, hp]

/-- Witness for the amended C4 with the failing oracle `run1`. -/
theorem c4_single_invocation_discarded_result_witness :
    add_media_metadata run1 ["root/a/p.jpg"] "exiftool" "root/a"
        ⟨some "p.jpg", none, none, none, none⟩ =
      Except.ok [Effect.run
        ([Arg.plain "exiftool", Arg.plain "-overwrite_original"]
         ++ descriptionArgs none
         ++ (MediaDates.ofDicts ((none : Option TimeDict).getD ⟨none⟩)
              ((none : Option TimeDict).getD ⟨none⟩)).to_params
         ++ (GPSData.ofDict ((none : Option GeoDict).getD ⟨none, none, none⟩)).to_params
         ++ [Arg.plain "root/a/p.jpg"])] :=
  c4_single_invocation_discarded_result run1 ["root/a/p.jpg"] "exiftool" "root/a" "p.jpg"
    "root/a/p.jpg" none none none none (by decide)

/-- Claim C5 (corrected), counterexample: a batch whose first collected task
raised on malformed JSON makes the coordinator's collection loop re-raise —
the run aborts with the decode error, and the second task's outcome is never
reported. -/
theorem c5_exception_aborts_collection :
    mainLoop
      [process_json_file run0 [] none "exiftool" "" "root" "root/a" "bad.json",
       process_json_file run0 ["root/a/p.jpg"] (some ⟨some "p.jpg", none, none, none, none⟩)
         "exiftool" "" "root" "root/a" "p.json"] =
      Except.error "Expecting value: line 1 column 1 (char 0)" := by
  decide

/-- Claim C5 (corrected), amended: an exception inside a task is not caught
at the task boundary — a sidecar that fails to parse makes the task itself
raise, and an exceptional task result re-raises in the coordinator's
collection loop, terminating collection instead of being recorded as a
Failed outcome. -/
theorem c5_exception_propagates :
    (∀ (extRun : List Arg → Int × String) (fs : List String)
        (exiftool_exe metadata_folder base_dir dir json_file : String),
      process_json_file extRun fs none exiftool_exe metadata_folder base_dir dir json_file =
        Except.error "Expecting value: line 1 column 1 (char 0)")
    ∧ (∀ (e : String) (rest : List (Except String (List Effect × Option String))),
        mainLoop (Except.error e :: rest) = Except.error e) :=
  ⟨fun _ _ _ _ _ _ _ => rfl, fun _ _ => rfl⟩

end GPhotos
